import Mathlib

/-!
Verification of the retrieval-augmented consulting tool: a shallow embedding
of `rag_system.py` (the `ConsultingRAG` knowledge retriever) and of the
retrieval-then-prompt flow of `app.py` (the brief generator), with theorems
settling the specification claims.

External services are modelled by explicit parameters: the HuggingFace
embedding model as a function `String → List Int`, the UTF-8 decoder used by
`TextLoader` as `List Nat → Option String`, the recursive character splitter
as a function receiving the configured chunk size and overlap, and the
Anthropic generation endpoint as an oracle from requests to responses.
Chroma's similarity search is modelled as nearest-neighbour search under its
default squared-L2 metric over the stored embeddings.
-/

/-- A langchain `Document`: the page text plus its source identifier. -/
structure Document where
  page_content : String
  source : String
deriving DecidableEq, Repr

/-- Squared L2 distance between two embedding vectors (Chroma's default
similarity metric). -/
def sqDist (u v : List Int) : Int :=
  (List.zipWith (fun a b => (a - b) * (a - b)) u v).sum

/-- Model of a Chroma vector store: the stored chunk documents together with
the embedding function fixed at construction time.  Nearest-neighbour lookup
embeds the query with this function and compares squared-L2 distances to the
stored chunks' embeddings. -/
structure Chroma where
  docs : List Document
  embed : String → List Int

/-- Relation: `a` is at least as near to the embedded query `text` as `b` is, under the
store's metric. -/
def Chroma.nearerTo (db : Chroma) (text : String) (a b : Document) : Prop :=
  sqDist (db.embed text) (db.embed a.page_content) ≤
    sqDist (db.embed text) (db.embed b.page_content)

instance (db : Chroma) (text : String) : DecidableRel (db.nearerTo text) :=
  fun a b => inferInstanceAs (Decidable (_ ≤ _))

/-- Model of `Chroma.similarity_search(query, k)`: the stored documents
ordered nearest-first to the embedded query, truncated to `k`. -/
def Chroma.similarity_search (db : Chroma) (query : String) (k : Nat) :
    List Document :=
  (db.docs.insertionSort (db.nearerTo query)).take k

/-- Error taxonomy of the retriever, naming the exceptions that escape
`ConsultingRAG`: the explicit `ValueError` raised by
`get_relevant_frameworks` when `self.vectordb is None`, the
`DirectoryLoader` failure on a missing or unreadable directory, and the
`TextLoader` failure when a file does not decode as UTF-8. -/
inductive RagError where
  | notReady
  | loadError
  | encodingError (file : String)
deriving DecidableEq, Repr

/-- A file on disk under the knowledge-base directory: a name and raw bytes. -/
structure FileEntry where
  name : String
  bytes : List Nat
deriving DecidableEq, Repr

/-- State of a `ConsultingRAG` instance as set up by `__init__`: the
knowledge-base path, the embedding function (`HuggingFaceEmbeddings` with
model `all-MiniLM-L6-v2`, abstracted), and `self.vectordb`, initially
`None`. -/
structure ConsultingRAG where
  knowledge_base_path : String
  embeddings : String → List Int
  vectordb : Option Chroma

/-- Constructor `ConsultingRAG.__init__(knowledge_base_path="./knowledge_base")`. -/
def ConsultingRAG.init (embedFn : String → List Int)
    (path : String := "./knowledge_base") : ConsultingRAG :=
  { knowledge_base_path := path, embeddings := embedFn, vectordb := none }

/-- Models `DirectoryLoader(..., loader_cls=TextLoader,
loader_kwargs={encoding: utf-8}).load()`: each file is decoded with the
abstract UTF-8 decoder `decode`; the first undecodable file aborts the load
with its encoding error, otherwise each file yields one `Document` and the
files' order is preserved. -/
def loadFiles (decode : List Nat → Option String) :
    List FileEntry → Except RagError (List Document)
  | [] => .ok []
  | f :: fs =>
    match decode f.bytes with
    | none => .error (.encodingError f.name)
    | some text =>
      (loadFiles decode fs).map (fun rest => ⟨text, f.name⟩ :: rest)

/-- The knowledge-base directory as seen by `DirectoryLoader`: `none` when
the directory is missing or unreadable (the loader raises), otherwise the
list of `**/*.txt` files it enumerates. -/
def directoryLoad (decode : List Nat → Option String)
    (dir : Option (List FileEntry)) : Except RagError (List Document) :=
  match dir with
  | none => .error .loadError
  | some files => loadFiles decode files

/-- The splitter configuration fixed in `build_knowledge_base`:
`RecursiveCharacterTextSplitter(chunk_size=1000, chunk_overlap=200)`. -/
structure TextSplitterCfg where
  chunk_size : Nat
  chunk_overlap : Nat
deriving DecidableEq, Repr

def ragSplitterCfg : TextSplitterCfg := { chunk_size := 1000, chunk_overlap := 200 }

/-- Models `RecursiveCharacterTextSplitter.split_documents`: the character
splitter (abstract here, applied at the configured chunk size and overlap)
is run on each document in order and the per-document chunk lists are
concatenated; every chunk keeps its source document's identifier. -/
def split_documents (splitText : Nat → Nat → String → List String)
    (cfg : TextSplitterCfg) (docs : List Document) : List Document :=
  (docs.map (fun d =>
    (splitText cfg.chunk_size cfg.chunk_overlap d.page_content).map
      (fun t => ⟨t, d.source⟩))).flatten

/-- Method `ConsultingRAG.build_knowledge_base`: loads every text file under the
knowledge-base directory, splits the documents into chunks with the fixed
splitter configuration, and builds a Chroma store over the chunks with
`self.embeddings` (`Chroma.from_documents`, persisted to `./chroma_db`).
On success `self.vectordb` is set to the new store; a loader failure
propagates and leaves the state unchanged. -/
def ConsultingRAG.build_knowledge_base
    (splitText : Nat → Nat → String → List String)
    (decode : List Nat → Option String) (rag : ConsultingRAG)
    (dir : Option (List FileEntry)) : Except RagError ConsultingRAG :=
  match directoryLoad decode dir with
  | .error e => .error e
  | .ok documents =>
    let chunks := split_documents splitText ragSplitterCfg documents
    .ok { rag with vectordb := some { docs := chunks, embed := rag.embeddings } }

/-- Models the langchain `Chroma(persist_directory=..., embedding_function=...)`
constructor: when a persisted collection exists at the directory it is
reopened as-is (no embedding is recomputed); when none exists the client
creates a fresh empty collection — the constructor does not fail on an
absent directory. -/
def chromaOpen (persisted : Option Chroma) (embedFn : String → List Int) :
    Chroma :=
  match persisted with
  | some db => db
  | none => { docs := [], embed := embedFn }

/-- Method `ConsultingRAG.load_existing_db`: opens `./chroma_db` (whose persisted
contents are `persisted`, `none` when nothing was ever persisted there) and
stores the handle in `self.vectordb`. -/
def ConsultingRAG.load_existing_db (rag : ConsultingRAG)
    (persisted : Option Chroma) : ConsultingRAG :=
  { rag with vectordb := some (chromaOpen persisted rag.embeddings) }

/-- The retrieval core of `get_relevant_frameworks`: the guard raising
`ValueError` when `self.vectordb is None`, then
`self.vectordb.similarity_search(query, k=k)`. -/
def ConsultingRAG.queryChunks (rag : ConsultingRAG) (query : String)
    (k : Nat) : Except RagError (List Document) :=
  match rag.vectordb with
  | none => .error .notReady
  | some db => .ok (db.similarity_search query k)

/-- The separator joining retrieved chunk texts in
`get_relevant_frameworks`. -/
def contextSep : String := "\n\n---\n\n"

/-- Method `ConsultingRAG.get_relevant_frameworks(query, k=3)`: retrieves the top-k
chunks and joins their texts with `contextSep`. -/
def ConsultingRAG.get_relevant_frameworks (rag : ConsultingRAG)
    (query : String) (k : Nat := 3) : Except RagError String :=
  (rag.queryChunks query k).map
    (fun docs => String.intercalate contextSep (docs.map Document.page_content))

/-- The structured fields collected by the input form in `app.py`; a field
left empty by the user is the empty string (Streamlit's default). -/
structure QueryFields where
  engagement_type : String
  industry : String
  challenge : String
  constraints : String
deriving DecidableEq, Repr

/-- The retrieval query string built in the click handler:
`f"{engagement_type}: {industry} - {challenge}"`. -/
def buildQuery (f : QueryFields) : String :=
  f.engagement_type ++ ": " ++ f.industry ++ " - " ++ f.challenge

/-- The fixed `system_prompt` string of `app.py`. -/
def system_prompt : String :=
  "You are a senior Strategy & Operations consultant. \n\nYour task is to analyze business challenges and provide actionable recommendations using proven consulting frameworks.\n\nKey principles:\n- Data-driven and realistic\n- Break complex problems into actionable steps\n- Balance technical and business perspectives\n- Provide specific metrics and timelines\n- Professional but clear communication\n\nOutput a comprehensive strategy brief with these sections:\n1. EXECUTIVE SUMMARY (3-4 key bullets)\n2. CURRENT STATE ASSESSMENT\n3. GAP ANALYSIS\n4. PRIORITIZED RECOMMENDATIONS (with effort/impact scores)\n5. IMPLEMENTATION ROADMAP (phased timeline)\n6. SUCCESS METRICS\n7. RISK REGISTER\n\nUse concrete examples and specific numbers where possible."

/-- The fixed head of the `user_prompt` template, preceding the retrieved
frameworks. -/
def templateHeader : String := "\nRELEVANT CONSULTING FRAMEWORKS:\n"

/-- The fixed tail of the `user_prompt` template following the retrieved
frameworks: the client-challenge block rendered from the structured fields
(with the `constraints if constraints else "None specified"` default) and
the closing instruction. -/
def clientSection (f : QueryFields) : String :=
  "\n\nCLIENT CHALLENGE:\nEngagement Type: " ++ f.engagement_type ++
  "\nIndustry: " ++ f.industry ++
  "\nChallenge: " ++ f.challenge ++
  "\nConstraints: " ++
  (if f.constraints.isEmpty then "None specified" else f.constraints) ++
  "\n\nUsing the frameworks above, generate a comprehensive strategy brief for this challenge.\n"

/-- The `user_prompt` f-string of `app.py`, rendered from the structured
fields and the already-joined frameworks context. -/
def user_prompt (f : QueryFields) (relevant_frameworks : String) : String :=
  "\nRELEVANT CONSULTING FRAMEWORKS:\n" ++ relevant_frameworks ++
  "\n\nCLIENT CHALLENGE:\nEngagement Type: " ++ f.engagement_type ++
  "\nIndustry: " ++ f.industry ++
  "\nChallenge: " ++ f.challenge ++
  "\nConstraints: " ++
  (if f.constraints.isEmpty then "None specified" else f.constraints) ++
  "\n\nUsing the frameworks above, generate a comprehensive strategy brief for this challenge.\n"

/-- The spec's `compose(query_fields, retrieved_chunks)`: the pipeline's
prompt-assembly step as the code performs it — the chunk texts joined with
`contextSep` (in `get_relevant_frameworks`) and embedded into the
`user_prompt` template. -/
def compose (f : QueryFields) (chunks : List String) : String :=
  user_prompt f (String.intercalate contextSep chunks)

/-- One message of an Anthropic API request. -/
structure AnthropicMessage where
  role : String
  content : String
deriving DecidableEq, Repr

/-- The request sent by `anthropic.messages.create`: model identifier,
maximum output tokens, and the message list. -/
structure AnthropicRequest where
  model : String
  max_tokens : Nat
  messages : List AnthropicMessage

/-- Failures of the external generation service (auth failure, rate
limiting, network failure, malformed response), as surfaced by the
Anthropic client. -/
inductive ServiceError where
  | authFailure
  | rateLimited
  | networkFailure
  | malformedResponse
deriving DecidableEq, Repr

/-- A successful API response: the list of content-block texts. -/
structure ApiResponse where
  content : List String
deriving DecidableEq, Repr

/-- The request `app.py` constructs for a given prompt: the fixed model
identifier, the fixed `max_tokens=4000`, and the prompt as the single user
message. -/
def generateRequest (prompt : String) : AnthropicRequest :=
  { model := "claude-sonnet-4-20250514", max_tokens := 4000,
    messages := [{ role := "user", content := prompt }] }

/-- The spec's `generate(prompt)`: the single blocking
`anthropic.messages.create` call followed by `response.content[0].text`.
The external service is an oracle from (request, call index) to outcome;
the result records the response (errors propagated unchanged, the first
content block's text returned unmodified otherwise) together with the
number of service calls issued. -/
def generate
    (service : AnthropicRequest → Nat → Except ServiceError ApiResponse)
    (prompt : String) : Except ServiceError (Option String) × Nat :=
  match service (generateRequest prompt) 0 with
  | .error e => (.error e, 1)
  | .ok r => (.ok r.content.head?, 1)

/-- Observable calls made by the click handler to the retriever and the
generation service. -/
inductive AppEvent where
  | retrievalCall (query : String) (k : Nat)
  | generationCall (prompt : String)
deriving DecidableEq, Repr

/-- Outcome of one click of the generate button. -/
inductive AppOutcome where
  | errorMsg (msg : String)
  | ragFailure (e : RagError)
  | serviceFailure (e : ServiceError)
  | brief (text : Option String)
deriving DecidableEq, Repr

/-- The `st.button("🚀 Generate Strategy Brief")` click handler of `app.py`:
reject an empty challenge before anything else, otherwise build the
retrieval query, fetch the top-3 frameworks, compose the prompt, and call
the generation service once; the returned trace lists the retrieval and
generation calls performed. -/
def generateStrategyBrief (rag : ConsultingRAG)
    (service : AnthropicRequest → Nat → Except ServiceError ApiResponse)
    (f : QueryFields) : AppOutcome × List AppEvent :=
  if f.challenge.isEmpty then
    (.errorMsg "Please describe the challenge before generating a brief.", [])
  else
    let query := buildQuery f
    match rag.get_relevant_frameworks query 3 with
    | .error e => (.ragFailure e, [.retrievalCall query 3])
    | .ok relevant_frameworks =>
      let prompt := system_prompt ++ "\n\n" ++ user_prompt f relevant_frameworks
      match generate service prompt with
      | (.error e, _) =>
        (.serviceFailure e, [.retrievalCall query 3, .generationCall prompt])
      | (.ok t, _) =>
        (.brief t, [.retrievalCall query 3, .generationCall prompt])

/-- A concrete embedding function used to instantiate the abstract
HuggingFace model in witness checks. -/
def demoEmbed (s : String) : List Int := [Int.ofNat s.length]

/-- A concrete text splitter used to instantiate the abstract recursive
character splitter in witness checks: one chunk per document. -/
def demoSplit (size overlap : Nat) (t : String) : List String :=
  if size = 0 ∧ overlap = 0 then [] else [t]

/-- A concrete UTF-8 decoder used in witness checks: the byte 255 can begin
no valid UTF-8 sequence, so a file starting with it fails to decode. -/
def demoDecode (bs : List Nat) : Option String :=
  if bs.head? = some 255 then none else some (String.mk (bs.map (fun _ => 'a')))

/-- A small concrete Chroma store for witness checks. -/
def demoDb : Chroma :=
  { docs := [⟨"alpha", "a.txt"⟩, ⟨"bb", "b.txt"⟩, ⟨"gamma42", "c.txt"⟩],
    embed := demoEmbed }

/-- A retriever instance whose vector database is `demoDb`. -/
def demoRag : ConsultingRAG :=
  { knowledge_base_path := "./knowledge_base", embeddings := demoEmbed,
    vectordb := some demoDb }

/-- A generation-service oracle that always fails with rate limiting. -/
def failService : AnthropicRequest → Nat → Except ServiceError ApiResponse :=
  fun _ _ => .error .rateLimited

/-- A generation-service oracle that always answers with one content block. -/
def okService : AnthropicRequest → Nat → Except ServiceError ApiResponse :=
  fun _ _ => .ok { content := ["generated brief"] }

/-- Concrete query fields for witness checks. -/
def demoFields : QueryFields :=
  { engagement_type := "M&A Integration", industry := "Technology / SaaS",
    challenge := "Two companies recently merged.",
    constraints := "Limited budget" }

/-- Variant of `demoFields` with a different `constraints` value only. -/
def demoFieldsAltConstraints : QueryFields :=
  { engagement_type := "M&A Integration", industry := "Technology / SaaS",
    challenge := "Two companies recently merged.",
    constraints := "" }

/-- Variant of `demoFields` with the challenge left empty. -/
def demoFieldsNoChallenge : QueryFields :=
  { engagement_type := "M&A Integration", industry := "Technology / SaaS",
    challenge := "", constraints := "Limited budget" }

/-- Sequential operations against one `ConsultingRAG` instance, as the
cached singleton in `app.py` sees them. -/
inductive RagOp where
  | build (dir : Option (List FileEntry))
  | load (persisted : Option Chroma)
  | query (text : String) (k : Nat)

/-- Effect of one operation on the instance state: a failing
`build_knowledge_base` raises before the assignment to `self.vectordb`, so
the state is unchanged; a successful one installs the new store;
`load_existing_db` always installs a store; `get_relevant_frameworks` is
read-only. -/
def applyOp (s : Nat → Nat → String → List String)
    (d : List Nat → Option String) (rag : ConsultingRAG) : RagOp → ConsultingRAG
  | .build dir =>
    match rag.build_knowledge_base s d dir with
    | .error _ => rag
    | .ok rag' => rag'
  | .load p => rag.load_existing_db p
  | .query _ _ => rag

theorem loadFiles_sources (d : List Nat → Option String) :
    ∀ (files : List FileEntry) (documents : List Document),
      loadFiles d files = .ok documents →
      documents.map Document.source = files.map FileEntry.name := by
  intro files
  induction files with
  | nil =>
    intro documents h
    simp only [loadFiles] at h
    cases h
    rfl
  | cons f fs ih =>
    intro documents h
    simp only [loadFiles] at h
    cases hd : d f.bytes with
    | none => rw [hd] at h; cases h
    | some text =>
      rw [hd] at h
      cases hrest : loadFiles d fs with
      | error e => rw [hrest] at h; cases h
      | ok rest =>
        rw [hrest] at h
        cases h
        simp [ih rest hrest]

theorem loadFiles_error_of_bad_file (d : List Nat → Option String) :
    ∀ files : List FileEntry, (∃ f ∈ files, d f.bytes = none) →
      ∃ name, loadFiles d files = .error (.encodingError name) := by
  intro files
  induction files with
  | nil => rintro ⟨f, hf, _⟩; cases hf
  | cons g gs ih =>
    rintro ⟨f, hf, hbad⟩
    cases hd : d g.bytes with
    | none => exact ⟨g.name, by simp [loadFiles, hd]⟩
    | some text =>
      rcases List.mem_cons.mp hf with rfl | hfs
      · rw [hd] at hbad; cases hbad
      · rcases ih ⟨f, hfs, hbad⟩ with ⟨name, herr⟩
        exact ⟨name, by simp [loadFiles, hd, herr, Except.map]⟩

/-- C2: `get_relevant_frameworks` on a freshly constructed instance — one
that was never built and never loaded — hits the `self.vectordb is None`
guard and fails with the not-ready error; the similarity search is never
reached. -/
theorem query_before_build_or_load_fails (embedFn : String → List Int)
    (path text : String) (k : Nat) :
    (ConsultingRAG.init embedFn path).get_relevant_frameworks text k =
      .error .notReady := rfl

/-- C3 counterexample: with nothing persisted at `./chroma_db`, the concrete
call `load_existing_db` does not fail — the Chroma constructor creates an
empty collection and the handle comes back initialized, contradicting the
claim that `load` fails with `NotFoundError` in this situation. -/
theorem load_with_no_persisted_index_succeeds :
    ((ConsultingRAG.init demoEmbed "./knowledge_base").load_existing_db
        none).vectordb = some { docs := [], embed := demoEmbed } := rfl

/-- C3 (amended): `load_existing_db` reopens a previously persisted index
exactly as persisted, recomputing nothing; when no persisted index exists
it still succeeds, installing a handle over a freshly created empty
collection rather than failing. -/
theorem load_existing_db_spec (rag : ConsultingRAG) :
    (∀ db : Chroma, (rag.load_existing_db (some db)).vectordb = some db) ∧
    (rag.load_existing_db none).vectordb =
      some { docs := [], embed := rag.embeddings } :=
  ⟨fun _ => rfl, rfl⟩

/-- C4: `compose` renders the fixed template — the fixed header, then the
retrieved chunk texts joined with the one fixed separator `contextSep`,
then the client-challenge block determined by the structured fields alone.
As a total function of its two arguments it performs no retrieval and no
network access. -/
theorem compose_fixed_template (f : QueryFields) (chunks : List String) :
    compose f chunks =
      templateHeader ++ String.intercalate contextSep chunks ++
        clientSection f := by
  simp [compose, user_prompt, templateHeader, clientSection,
    String.append_assoc]

/-- C5: `compose` is a pure function of its inputs — two calls with equal
query fields and equal retrieved chunk texts produce byte-identical
prompts. -/
theorem compose_deterministic (f₁ f₂ : QueryFields)
    (c₁ c₂ : List String) (hf : f₁ = f₂) (hc : c₁ = c₂) :
    compose f₁ c₁ = compose f₂ c₂ := by
  rw [hf, hc]

theorem compose_deterministic_witness :
    compose demoFields ["chunk one", "chunk two"] =
      compose demoFields ["chunk one", "chunk two"] :=
  compose_deterministic demoFields demoFields ["chunk one", "chunk two"]
    ["chunk one", "chunk two"] rfl rfl

/-- C1: on a built or loaded handle, retrieval with any query and any
`k ≥ 1` returns a chunk sequence of at most `k` elements, ordered
nearest-first under the store's similarity metric, and every returned chunk
is one of the chunks stored in the index. -/
theorem query_top_k_sorted (rag : ConsultingRAG) (db : Chroma)
    (text : String) (k : Nat) (hdb : rag.vectordb = some db) (hk : 1 ≤ k) :
    ∃ l : List Document,
      rag.queryChunks text k = .ok l ∧
      l.length ≤ k ∧
      l.Sorted (db.nearerTo text) ∧
      ∀ c ∈ l, c ∈ db.docs := by
  refine ⟨db.similarity_search text k, ?_, ?_, ?_, ?_⟩
  · simp [ConsultingRAG.queryChunks, hdb]
  · exact List.length_take_le k _
  · haveI : IsTotal Document (db.nearerTo text) :=
      ⟨fun a b => Int.le_total _ _⟩
    haveI : IsTrans Document (db.nearerTo text) :=
      ⟨fun a b c hab hbc => le_trans hab hbc⟩
    exact List.Pairwise.sublist (List.take_sublist _ _)
      (List.sorted_insertionSort _ _)
  · intro c hc
    exact (List.perm_insertionSort (db.nearerTo text) db.docs).mem_iff.mp
      (List.mem_of_mem_take hc)

theorem query_top_k_sorted_witness :
    ∃ l : List Document,
      demoRag.queryChunks "xy" 2 = .ok l ∧
      l.length ≤ 2 ∧
      l.Sorted (demoDb.nearerTo "xy") ∧
      ∀ c ∈ l, c ∈ demoDb.docs :=
  query_top_k_sorted demoRag demoDb "xy" 2 rfl (by decide)

/-- C6: for every prompt, `generate` sends exactly that prompt as the single
user message of a request with the fixed model identifier
`claude-sonnet-4-20250514` and the fixed `max_tokens = 4000`; it issues
exactly one service call (no internal retry); a service failure is
propagated to the caller unchanged; on success the first content block's
text is returned unmodified. -/
theorem generate_service_contract
    (service : AnthropicRequest → Nat → Except ServiceError ApiResponse)
    (prompt : String) :
    (generateRequest prompt).model = "claude-sonnet-4-20250514" ∧
    (generateRequest prompt).max_tokens = 4000 ∧
    (generateRequest prompt).messages = [⟨"user", prompt⟩] ∧
    (generate service prompt).2 = 1 ∧
    (∀ e, service (generateRequest prompt) 0 = .error e →
      (generate service prompt).1 = .error e) ∧
    (∀ r, service (generateRequest prompt) 0 = .ok r →
      (generate service prompt).1 = .ok r.content.head?) := by
  refine ⟨rfl, rfl, rfl, ?_, ?_, ?_⟩
  · cases h : service (generateRequest prompt) 0 <;> simp [generate, h]
  · intro e he; simp [generate, he]
  · intro r hr; simp [generate, hr]

theorem generate_service_contract_witness :
    (generate failService "ping").1 = .error .rateLimited ∧
    (generate okService "ping").1 = .ok (some "generated brief") ∧
    (generate failService "ping").2 = 1 :=
  ⟨(generate_service_contract failService "ping").2.2.2.2.1 .rateLimited rfl,
   (generate_service_contract okService "ping").2.2.2.2.2
     { content := ["generated brief"] } rfl,
   (generate_service_contract failService "ping").2.2.2.1⟩

/-- C8: when the challenge field is empty (Streamlit's value for a missing
entry), the click handler rejects the input up front: the outcome is the
error message, the call trace is empty — no retrieval and no generation
call happened, hence nothing was composed — and the result does not depend
on the retriever or on the generation service at all. -/
theorem empty_challenge_rejected (rag rag' : ConsultingRAG)
    (service service' : AnthropicRequest → Nat → Except ServiceError ApiResponse)
    (f : QueryFields) (h : f.challenge = "") :
    generateStrategyBrief rag service f =
      (.errorMsg "Please describe the challenge before generating a brief.",
        []) ∧
    generateStrategyBrief rag service f =
      generateStrategyBrief rag' service' f := by
  have hempty : f.challenge.isEmpty = true := by rw [h]; rfl
  constructor
  · simp [generateStrategyBrief, hempty]
  · simp [generateStrategyBrief, hempty]

theorem empty_challenge_rejected_witness :
    generateStrategyBrief demoRag failService demoFieldsNoChallenge =
      (.errorMsg "Please describe the challenge before generating a brief.",
        []) ∧
    generateStrategyBrief demoRag failService demoFieldsNoChallenge =
      generateStrategyBrief (ConsultingRAG.init demoEmbed "./kb") okService
        demoFieldsNoChallenge :=
  empty_challenge_rejected demoRag (ConsultingRAG.init demoEmbed "./kb")
    failService okService demoFieldsNoChallenge rfl

/-- C10: the constraints field does not influence retrieval — two requests
agreeing on engagement type, industry, and challenge produce the same
retrieval query string, hence identical retrieved chunk sequences and
identical joined frameworks context on any retriever instance; constraints
enter only the composed prompt. -/
theorem constraints_do_not_influence_retrieval (f f' : QueryFields)
    (h₁ : f.engagement_type = f'.engagement_type)
    (h₂ : f.industry = f'.industry) (h₃ : f.challenge = f'.challenge) :
    buildQuery f = buildQuery f' ∧
    ∀ (rag : ConsultingRAG) (k : Nat),
      rag.queryChunks (buildQuery f) k = rag.queryChunks (buildQuery f') k ∧
      rag.get_relevant_frameworks (buildQuery f) k =
        rag.get_relevant_frameworks (buildQuery f') k := by
  have hq : buildQuery f = buildQuery f' := by
    simp [buildQuery, h₁, h₂, h₃]
  exact ⟨hq, fun rag k => by rw [hq]; exact ⟨rfl, rfl⟩⟩

theorem constraints_do_not_influence_retrieval_witness :
    buildQuery demoFields = buildQuery demoFieldsAltConstraints ∧
    demoRag.queryChunks (buildQuery demoFields) 3 =
      demoRag.queryChunks (buildQuery demoFieldsAltConstraints) 3 ∧
    demoRag.get_relevant_frameworks (buildQuery demoFields) 3 =
      demoRag.get_relevant_frameworks (buildQuery demoFieldsAltConstraints) 3 :=
  ⟨(constraints_do_not_influence_retrieval demoFields demoFieldsAltConstraints
      rfl rfl rfl).1,
   (constraints_do_not_influence_retrieval demoFields demoFieldsAltConstraints
      rfl rfl rfl).2 demoRag 3⟩

/-- C7: `build_knowledge_base` uses the fixed splitter configuration
(chunk size 1000, overlap 200); a missing or unreadable directory fails
with the load error; any file that the UTF-8 decoder rejects fails the
build with an encoding error; and on a successful load the built store's
chunk sequence is the concatenation, in document order, of each document's
chunk list produced by the splitter at the fixed configuration, the loaded
documents themselves being in file order. -/
theorem build_chunking_and_errors
    (s : Nat → Nat → String → List String) (d : List Nat → Option String)
    (rag : ConsultingRAG) :
    ragSplitterCfg.chunk_size = 1000 ∧
    ragSplitterCfg.chunk_overlap = 200 ∧
    rag.build_knowledge_base s d none = .error .loadError ∧
    (∀ files : List FileEntry, (∃ f ∈ files, d f.bytes = none) →
      ∃ name, rag.build_knowledge_base s d (some files) =
        .error (.encodingError name)) ∧
    (∀ (files : List FileEntry) (documents : List Document),
      loadFiles d files = .ok documents →
      rag.build_knowledge_base s d (some files) =
        .ok ({ rag with vectordb := some ({
            docs := (documents.map (fun doc =>
              (s 1000 200 doc.page_content).map
                (fun t => ⟨t, doc.source⟩))).flatten,
            embed := rag.embeddings } : Chroma) }) ∧
      documents.map Document.source = files.map FileEntry.name) := by
  refine ⟨rfl, rfl, rfl, ?_, ?_⟩
  · intro files hbad
    rcases loadFiles_error_of_bad_file d files hbad with ⟨name, herr⟩
    exact ⟨name,
      by simp [ConsultingRAG.build_knowledge_base, directoryLoad, herr]⟩
  · intro files documents hok
    constructor
    · simp [ConsultingRAG.build_knowledge_base, directoryLoad, hok,
        split_documents, ragSplitterCfg]
    · exact loadFiles_sources d files documents hok

theorem build_chunking_and_errors_witness :
    (∃ name,
      (ConsultingRAG.init demoEmbed "./knowledge_base").build_knowledge_base
          demoSplit demoDecode (some [⟨"bad.txt", [255]⟩]) =
        .error (.encodingError name)) ∧
    (ConsultingRAG.init demoEmbed "./knowledge_base").build_knowledge_base
        demoSplit demoDecode none = .error .loadError :=
  ⟨(build_chunking_and_errors demoSplit demoDecode
      (ConsultingRAG.init demoEmbed "./knowledge_base")).2.2.2.1
      [⟨"bad.txt", [255]⟩] ⟨⟨"bad.txt", [255]⟩, by simp, by decide⟩,
   (build_chunking_and_errors demoSplit demoDecode
      (ConsultingRAG.init demoEmbed "./knowledge_base")).2.2.1⟩

theorem build_ok_vectordb_isSome (s : Nat → Nat → String → List String)
    (d : List Nat → Option String) (rag rag₁ : ConsultingRAG)
    (dir : Option (List FileEntry))
    (h : rag.build_knowledge_base s d dir = .ok rag₁) :
    rag₁.vectordb.isSome := by
  cases hld : directoryLoad d dir with
  | error e =>
    simp [ConsultingRAG.build_knowledge_base, hld] at h
  | ok docs =>
    simp only [ConsultingRAG.build_knowledge_base, hld, Except.ok.injEq] at h
    subst h
    rfl

theorem applyOp_preserves_isSome (s : Nat → Nat → String → List String)
    (d : List Nat → Option String) (op : RagOp) (rag : ConsultingRAG)
    (h : rag.vectordb.isSome) : (applyOp s d rag op).vectordb.isSome := by
  cases op with
  | build dir =>
    cases hb : rag.build_knowledge_base s d dir with
    | error e => simpa [applyOp, hb] using h
    | ok rag' =>
      simpa [applyOp, hb] using
        build_ok_vectordb_isSome s d rag rag' dir hb
  | load p => rfl
  | query t k => exact h

theorem foldl_preserves_isSome (s : Nat → Nat → String → List String)
    (d : List Nat → Option String) :
    ∀ (ops : List RagOp) (rag : ConsultingRAG), rag.vectordb.isSome →
      ((ops.foldl (applyOp s d) rag).vectordb).isSome := by
  intro ops
  induction ops with
  | nil => intro rag h; exact h
  | cons op rest ih =>
    intro rag h
    exact ih _ (applyOp_preserves_isSome s d op rag h)

theorem isSome_no_notReady (rag : ConsultingRAG)
    (h : rag.vectordb.isSome) (q : String) (k : Nat) :
    rag.get_relevant_frameworks q k ≠ .error .notReady := by
  cases hdb : rag.vectordb with
  | none => rw [hdb] at h; cases h
  | some db =>
    simp [ConsultingRAG.get_relevant_frameworks, ConsultingRAG.queryChunks,
      hdb, Except.map]

/-- C9: a successful `build_knowledge_base` or `load_existing_db` leaves
`self.vectordb` non-`None`; every subsequent operation on the instance —
further builds (even failing ones, which raise before the assignment),
loads, and queries — keeps it non-`None`; hence every later
`get_relevant_frameworks` call passes the initialization guard and never
fails with the not-initialized error. -/
theorem vectordb_stays_initialized (s : Nat → Nat → String → List String)
    (d : List Nat → Option String) (rag rag₁ : ConsultingRAG)
    (dir : Option (List FileEntry)) (p : Option Chroma) (ops : List RagOp) :
    (rag.build_knowledge_base s d dir = .ok rag₁ → rag₁.vectordb.isSome) ∧
    (rag.load_existing_db p).vectordb.isSome ∧
    (rag.vectordb.isSome →
      (ops.foldl (applyOp s d) rag).vectordb.isSome ∧
      ∀ (q : String) (k : Nat),
        (ops.foldl (applyOp s d) rag).get_relevant_frameworks q k ≠
          .error .notReady) := by
  refine ⟨build_ok_vectordb_isSome s d rag rag₁ dir, rfl, fun h => ?_⟩
  have hs := foldl_preserves_isSome s d ops rag h
  exact ⟨hs, fun q k => isSome_no_notReady _ hs q k⟩

theorem vectordb_stays_initialized_witness :
    ([RagOp.load none, RagOp.query "q" 2,
        RagOp.build (some [⟨"bad.txt", [255]⟩])].foldl
      (applyOp demoSplit demoDecode) demoRag).get_relevant_frameworks "q" 2 ≠
      .error .notReady :=
  ((vectordb_stays_initialized demoSplit demoDecode demoRag demoRag none none
      [RagOp.load none, RagOp.query "q" 2,
        RagOp.build (some [⟨"bad.txt", [255]⟩])]).2.2 rfl).2 "q" 2
